import Mathlib

/-!
Verification of the `beginner_tutorials` talker node (src/src/talker.cpp).

The node is shallowly embedded as follows.

* The shared mutable cell `message` (talker.cpp line 40) together with the
  loop counter `count` (line 144) form a `LoopState`; the initial state has
  `message = "Written By Aman Virmani"` and `count = 0`.
* The service callback `say` (lines 48-54) becomes a pure function from the
  current shared message and the request string to a `SayResult` holding the
  new shared message, the response field `modifiedStr`, and the returned bool.
* Frequency handling (lines 85-108) becomes `frequencyResolution`, returning
  the effective frequency together with the levels of the diagnostic notices
  emitted on that path; the `argc`/`atoi` preamble (lines 85-90) becomes
  `startupTalkerFrequency` over the list of command-line arguments after the
  program name, with `atoi` modelled from the C standard-library semantics.
* One iteration of the publish loop (lines 145-180) becomes `tick`: it
  composes the outgoing string from `count` and the message snapshot
  (lines 151-153), then `ros::spinOnce()` (line 176) dispatches the service
  requests that arrived during this tick (ROS uses a single-threaded spinner
  here, so callbacks run sequentially at the spin point), and finally the
  counter is incremented (line 179).  A whole run is `runState`/`texts` over
  a schedule: one list of pending service inputs per tick.
* The per-tick transform broadcast (lines 166-174) becomes `tf.sendTransform`
  over real-valued coordinates, with `tf.setRPY` transcribed from the tf
  library's Quaternion::setRPY.
-/

/-- Levels of the diagnostic notices (ROS console severities). -/
inductive LogLevel where
  | debug
  | info
  | warn
  | error
  | fatal
deriving DecidableEq

/-- The default string published by the talker (talker.cpp line 40,
initial value of the global `message`). -/
def initialMessage : String := "Written By Aman Virmani"

/-- Result of one invocation of the service callback: the value of the shared
`message` cell after the call, the response's `modifiedStr` field, and the
bool the callback returns. -/
structure SayResult where
  newMessage : String
  modifiedStr : String
  ok : Bool
deriving DecidableEq

/-- The service callback `say` (talker.cpp lines 48-54): `res.modifiedStr =
req.inputStr; message = res.modifiedStr; return true`, as a pure function of
the current shared message and the request's `inputStr`. -/
def say (_message : String) (inputStr : String) : SayResult :=
  { newMessage := inputStr, modifiedStr := inputStr, ok := true }

/-- Sequential dispatch of a batch of pending service requests (what
`ros::spinOnce()` does at line 176): threads the shared message through the
`say` callback for each request in arrival order, collecting each call's
response string and returned bool. -/
def serveAll (message : String) : List String → String × List (String × Bool)
  | [] => (message, [])
  | req :: rest =>
      let r := say message req
      let out := serveAll r.newMessage rest
      (out.1, (r.modifiedStr, r.ok) :: out.2)

/-- Frequency validation (talker.cpp lines 92-108): a positive requested
frequency is kept (DEBUG notice); a negative one is replaced by 10 (FATAL
then WARN notices); zero is replaced by 10 (ERROR then WARN notices). -/
def frequencyResolution (talkerFrequency : Int) : Int × List LogLevel :=
  if talkerFrequency > 0 then
    (talkerFrequency, [LogLevel.debug])
  else if talkerFrequency < 0 then
    (10, [LogLevel.fatal, LogLevel.warn])
  else
    (10, [LogLevel.error, LogLevel.warn])

/-- Characters skipped by `atoi` before the number (C `isspace` set). -/
def isAsciiSpace (c : Char) : Bool :=
  c = ' ' || c = '\t' || c = '\n' || c = '\x0b' || c = '\x0c' || c = '\r'

/-- Accumulate leading decimal digits; stops at the first non-digit
(the behaviour of `atoi` after the optional sign). -/
def atoiDigits : List Char → Nat → Nat
  | [], acc => acc
  | c :: cs, acc =>
      if c.isDigit then atoiDigits cs (10 * acc + (c.toNat - 48)) else acc

/-- Strip one optional leading sign character. -/
def afterSign : List Char → List Char
  | '-' :: rest => rest
  | '+' :: rest => rest
  | cs => cs

/-- The sign factor read by `atoi`: -1 when the first character after the
leading whitespace is a minus sign, +1 otherwise. -/
def atoiSign : List Char → Int
  | '-' :: _ => -1
  | _ => 1

/-- Modelled from the C standard library: `atoi` (used at talker.cpp
line 89) skips leading whitespace, reads an optional sign and then leading
decimal digits, and yields 0 when no digits are present. -/
def atoi (s : String) : Int :=
  atoiSign (s.toList.dropWhile isAsciiSpace)
    * (atoiDigits (afterSign (s.toList.dropWhile isAsciiSpace)) 0 : Int)

/-- A string on which `atoi` finds no digits: after optional whitespace and
an optional sign there is no leading decimal digit. -/
def nonNumeric (s : String) : Bool :=
  match afterSign (s.toList.dropWhile isAsciiSpace) with
  | [] => true
  | c :: _ => !c.isDigit

/-- The requested frequency as read from the command line (talker.cpp
lines 85-90): `talkerFrequency` starts at 10 and is overwritten with
`atoi (argv[1])` only when an argument is present.  `args` is the argument
list after the program name (so `argc > 1` means `args` is non-empty). -/
def startupTalkerFrequency (args : List String) : Int :=
  match args with
  | [] => 10
  | a :: _ => atoi a

/-- Full startup path: parse the command line, then validate (lines 85-108).
Returns the effective frequency and the notice levels emitted. -/
def startupFrequency (args : List String) : Int × List LogLevel :=
  frequencyResolution (startupTalkerFrequency args)

/-- The state carried across loop iterations: the shared `message` cell
(line 40) and the counter `count` (line 144). -/
structure LoopState where
  message : String
  count : Nat
deriving DecidableEq

/-- The state at the top of the first loop iteration. -/
def initState : LoopState := { message := initialMessage, count := 0 }

/-- One iteration of the publish loop (talker.cpp lines 145-180), given the
service requests that are dispatched by this iteration's `ros::spinOnce()`:
returns the published string `ss.str()` composed at lines 151-153
(counter, space, message snapshot) and the state for the next iteration
(message updated by the dispatched callbacks, counter incremented at
line 179). -/
def tick (s : LoopState) (reqs : List String) : String × LoopState :=
  (toString s.count ++ " " ++ s.message,
   { message := (serveAll s.message reqs).1, count := s.count + 1 })

/-- Run the loop over a schedule (one batch of service requests per tick),
returning the final state. -/
def runState : LoopState → List (List String) → LoopState
  | s, [] => s
  | s, reqs :: rest => runState (tick s reqs).2 rest

/-- The strings published tick by tick over a schedule. -/
def texts : LoopState → List (List String) → List String
  | _, [] => []
  | s, reqs :: rest => (tick s reqs).1 :: texts (tick s reqs).2 rest

/-- The two's-complement value of a 32-bit machine `int` holding the result
of `n` increments from 0 (the counter at line 144 is a C++ `int`). -/
def toInt32 (n : Nat) : Int :=
  let m : Nat := n % 2 ^ 32
  if m < 2 ^ 31 then (m : Int) else (m : Int) - 2 ^ 32

namespace tf

/-- tf's 3-vector, over the reals. -/
structure Vector3 where
  x : ℝ
  y : ℝ
  z : ℝ

/-- tf's quaternion, over the reals. -/
structure Quaternion where
  x : ℝ
  y : ℝ
  z : ℝ
  w : ℝ

/-- tf's Quaternion::setRPY (used at talker.cpp line 169), transcribed from
the tf library over exact reals. -/
noncomputable def setRPY (roll pitch yaw : ℝ) : Quaternion :=
  let halfYaw := yaw * (1 / 2)
  let halfPitch := pitch * (1 / 2)
  let halfRoll := roll * (1 / 2)
  let cosYaw := Real.cos halfYaw
  let sinYaw := Real.sin halfYaw
  let cosPitch := Real.cos halfPitch
  let sinPitch := Real.sin halfPitch
  let cosRoll := Real.cos halfRoll
  let sinRoll := Real.sin halfRoll
  { x := sinRoll * cosPitch * cosYaw - cosRoll * sinPitch * sinYaw
    y := cosRoll * sinPitch * cosYaw + sinRoll * cosPitch * sinYaw
    z := cosRoll * cosPitch * sinYaw - sinRoll * sinPitch * cosYaw
    w := cosRoll * cosPitch * cosYaw + sinRoll * sinPitch * sinYaw }

/-- The stamped transform broadcast each tick. -/
structure StampedTransform where
  translation : Vector3
  rotation : Quaternion
  stamp : ℝ
  frame_id : String
  child_frame_id : String

/-- The transform emission of one loop iteration (talker.cpp lines 166-174):
origin (0, 2, 0), rotation `setRPY 0 0 1`, stamped with the current time,
parent frame "world", child frame "talk".  It takes the loop state as an
argument to record that the emission is made inside the loop, but — exactly
as in the source — it does not read it. -/
noncomputable def sendTransform (_s : LoopState) (now : ℝ) : StampedTransform :=
  { translation := { x := 0, y := 2, z := 0 }
    rotation := setRPY 0 0 1
    stamp := now
    frame_id := "world"
    child_frame_id := "talk" }

end tf

/-- Sample request string used in concrete scenarios. -/
def helloReq : String := "hello"

/-- Sample non-numeric command-line argument. -/
def argAbc : String := "abc"

/-! ### Helper lemmas about the loop -/

theorem runState_count (l : List (List String)) :
    ∀ s : LoopState, (runState s l).count = s.count + l.length := by
  induction l with
  | nil => intro s; simp [runState]
  | cons reqs rest ih =>
    intro s
    rw [show runState s (reqs :: rest) = runState (tick s reqs).2 rest from rfl, ih]
    simp [tick]
    omega

theorem runState_append (l1 l2 : List (List String)) :
    ∀ s : LoopState, runState s (l1 ++ l2) = runState (runState s l1) l2 := by
  induction l1 with
  | nil => intro s; rfl
  | cons reqs rest ih => intro s; exact ih (tick s reqs).2

theorem texts_getElem (l : List (List String)) :
    ∀ (s : LoopState) (T : Nat), T < l.length →
      (texts s l)[T]? =
        some (toString (runState s (l.take T)).count ++ " " ++
          (runState s (l.take T)).message) := by
  induction l with
  | nil => intro s T h; simp at h
  | cons reqs rest ih =>
    intro s T h
    cases T with
    | zero =>
      simp [texts, runState, tick]
    | succ T2 =>
      have h2 : T2 < rest.length := by simpa using h
      rw [show texts s (reqs :: rest) = (tick s reqs).1 :: texts (tick s reqs).2 rest from rfl,
        List.getElem?_cons_succ,
        show (reqs :: rest).take (T2 + 1) = reqs :: rest.take T2 from rfl,
        show runState s (reqs :: rest.take T2) = runState (tick s reqs).2 (rest.take T2) from rfl]
      exact ih (tick s reqs).2 T2 h2

theorem serveAll_fst_getLast (reqs : List String) :
    ∀ m Y : String, reqs.getLast? = some Y → (serveAll m reqs).1 = Y := by
  induction reqs with
  | nil => intro m Y h; simp at h
  | cons req rest ih =>
    intro m Y h
    cases rest with
    | nil =>
      simp at h
      simp [serveAll, say, h]
    | cons b t =>
      rw [List.getLast?_cons_cons] at h
      simpa [serveAll, say] using ih req Y h

theorem serveAll_oks (reqs : List String) :
    ∀ m : String, ((serveAll m reqs).2).map Prod.snd = reqs.map fun _ => true := by
  induction reqs with
  | nil => intro m; rfl
  | cons req rest ih => intro m; simp [serveAll, say, ih]

theorem atoiDigits_head_not_digit {c : Char} {cs : List Char} (h : c.isDigit = false) :
    atoiDigits (c :: cs) 0 = 0 := by
  simp [atoiDigits, h]

theorem atoi_of_nonNumeric {s : String} (h : nonNumeric s = true) : atoi s = 0 := by
  unfold atoi
  have hmag : atoiDigits (afterSign (s.toList.dropWhile isAsciiSpace)) 0 = 0 := by
    unfold nonNumeric at h
    cases hs : afterSign (s.toList.dropWhile isAsciiSpace) with
    | nil => rfl
    | cons c cs =>
      rw [hs] at h
      simp at h
      exact atoiDigits_head_not_digit h
  rw [hmag]
  simp

theorem toInt32_of_lt {n : Nat} (h : n < 2 ^ 31) : toInt32 n = (n : Int) := by
  have h32 : n % 2 ^ 32 = n := Nat.mod_eq_of_lt (by omega)
  simp only [toInt32, h32]
  rw [if_pos h]

theorem frequencyResolution_pos (f : Int) : 0 < (frequencyResolution f).1 := by
  unfold frequencyResolution
  split
  next h => simpa using h
  next h => split <;> norm_num

/-! ### Claims -/

/-- C1: Frequency resolution (talker.cpp lines 92-108).  For every integer
requested frequency f: if f is positive the effective frequency is f itself;
if f is negative the effective frequency is 10; if f is zero the effective
frequency is 10.  The resolution is a pure Lean function, hence deterministic
and side-effect free apart from the returned notice levels. -/
theorem C1_frequency_resolution (f : Int) :
    (f > 0 → (frequencyResolution f).1 = f)
    ∧ (f < 0 → (frequencyResolution f).1 = 10)
    ∧ (f = 0 → (frequencyResolution f).1 = 10) := by
  refine ⟨fun h => ?_, fun h => ?_, fun h => ?_⟩
  · simp [frequencyResolution, h]
  · have h1 : ¬ f > 0 := by omega
    simp [frequencyResolution, h1, h]
  · subst h
    rfl

/-- Witness for C1 at the concrete requested frequencies 7, -5 and 0. -/
theorem C1_frequency_resolution_witness :
    ((7 : Int) > 0 ∧ (frequencyResolution 7).1 = 7)
    ∧ ((-5 : Int) < 0 ∧ (frequencyResolution (-5)).1 = 10)
    ∧ ((0 : Int) = 0 ∧ (frequencyResolution 0).1 = 10) :=
  ⟨⟨by decide, (C1_frequency_resolution 7).1 (by decide)⟩,
   ⟨by decide, (C1_frequency_resolution (-5)).2.1 (by decide)⟩,
   ⟨rfl, (C1_frequency_resolution 0).2.2 rfl⟩⟩

/-- C3: Mutation handler echo and overwrite (talker.cpp lines 48-54).  For
every current shared message m and every input string X (the empty string and
arbitrarily long strings included, since X ranges over all of String), the
response's modifiedStr field equals X and the shared message after the call
equals X. -/
theorem C3_mutation_echo_overwrite (m X : String) :
    (say m X).modifiedStr = X ∧ (say m X).newMessage = X :=
  ⟨rfl, rfl⟩

/-- C7: Effective-frequency positivity (talker.cpp lines 85-108, consumed by
ros::Rate at line 138).  For every requested integer frequency, and for every
command line, the effective frequency is strictly positive, so the tick
period 1/effective is well defined (and positive as a rational). -/
theorem C7_effective_frequency_positive (f : Int) (args : List String) :
    0 < (frequencyResolution f).1
    ∧ 0 < (startupFrequency args).1
    ∧ 0 < (1 : ℚ) / ((startupFrequency args).1 : ℚ) := by
  refine ⟨frequencyResolution_pos f, frequencyResolution_pos _, ?_⟩
  have h : (0 : ℚ) < ((startupFrequency args).1 : ℚ) := by
    exact_mod_cast frequencyResolution_pos (startupTalkerFrequency args)
  exact div_pos one_pos h

/-- C8: Mutation handler total success (talker.cpp lines 48-54).  Every
single invocation of the say callback returns true, and dispatching any
batch of requests sequentially yields true for every call: there is no
error path and no validation rejection. -/
theorem C8_mutation_total_success (m X : String) (inputs : List String) :
    (say m X).ok = true
    ∧ ((serveAll m inputs).2).map Prod.snd = inputs.map fun _ => true :=
  ⟨rfl, serveAll_oks inputs m⟩

/-- C4: Sequence counter invariant (talker.cpp lines 144 and 179).  The
counter starts at 0, each tick increments it by exactly 1 (so it never
skips, never repeats and is never reset), it never decreases across any run,
and after the N ticks of any schedule it equals N. -/
theorem C4_sequence_counter :
    initState.count = 0
    ∧ (∀ (s : LoopState) (reqs : List String), ((tick s reqs).2).count = s.count + 1)
    ∧ (∀ schedule : List (List String),
        (runState initState schedule).count = schedule.length)
    ∧ (∀ (s : LoopState) (schedule : List (List String)),
        s.count ≤ (runState s schedule).count) := by
  refine ⟨rfl, fun s reqs => rfl, fun schedule => ?_, fun s schedule => ?_⟩
  · rw [runState_count]
    simp [initState]
  · rw [runState_count]
    omega

/-- C5: End-to-end composition (talker.cpp lines 40, 48-54, 149-153, 179).
Every tick publishes the string formed from the counter, a space and the
message snapshot; on the schedule where the service request "hello" arrives
during the first tick, tick 0 publishes "0 Written By Aman Virmani" and
tick 1 publishes "1 hello"; and the mutation call itself echoes "hello". -/
theorem C5_end_to_end :
    (∀ (s : LoopState) (reqs : List String),
        (tick s reqs).1 = toString s.count ++ " " ++ s.message)
    ∧ texts initState [[helloReq], []] = ["0 Written By Aman Virmani", "1 hello"]
    ∧ (say initialMessage helloReq).modifiedStr = "hello" :=
  ⟨fun _s _reqs => rfl, rfl, rfl⟩

/-- C2: Bounded staleness across the two channels (talker.cpp lines 48-54
and 145-180, with callbacks dispatched at the single-threaded spinOnce of
line 176).  If the writes completed strictly before tick T begins have left
the shared message at X (X is the last such write, or the initial message
when none occurred), then tick T publishes exactly the string "T X", i.e.
its text component is X.  A write that races with tick T — dispatched at
tick T's own spinOnce, after tick T's snapshot — is, when it is the last
such write, the shared message at the start of tick T+1, and is therefore
reflected no later than tick T+1's published text "T+1 Y". -/
theorem C2_bounded_staleness (schedule : List (List String)) (T : Nat) (X : String)
    (hT : T < schedule.length) :
    ((runState initState (schedule.take T)).message = X →
      (texts initState schedule)[T]? = some (toString T ++ " " ++ X))
    ∧ (∀ reqs : List String, schedule[T]? = some reqs →
        ∀ Y : String, reqs.getLast? = some Y →
          (runState initState (schedule.take (T + 1))).message = Y
          ∧ (T + 1 < schedule.length →
              (texts initState schedule)[T + 1]? =
                some (toString (T + 1) ++ " " ++ Y))) := by
  have hcount : ∀ U : Nat, U ≤ schedule.length →
      (runState initState (schedule.take U)).count = U := by
    intro U hU
    rw [runState_count]
    simp [initState, List.length_take]
    omega
  constructor
  · intro hX
    rw [texts_getElem schedule initState T hT, hcount T (le_of_lt hT), hX]
  · intro reqs hreq Y hY
    have htake : schedule.take (T + 1) = schedule.take T ++ [reqs] := by
      rw [List.take_succ, hreq]
      rfl
    have hmsg : (runState initState (schedule.take (T + 1))).message = Y := by
      rw [htake, runState_append]
      show (runState (tick (runState initState (schedule.take T)) reqs).2 []).message = Y
      simp [runState, tick]
      exact serveAll_fst_getLast reqs _ Y hY
    refine ⟨hmsg, fun h2 => ?_⟩
    rw [texts_getElem schedule initState (T + 1) h2, hcount (T + 1) (le_of_lt h2), hmsg]

/-- Witness for C2: on the schedule where "hello" arrives during tick 0,
tick 0 publishes the initial message prefixed by 0, and the racing write is
the shared message at the start of tick 1. -/
theorem C2_bounded_staleness_witness :
    (texts initState [[helloReq], []])[0]? =
      some (toString (0 : Nat) ++ " " ++ initialMessage)
    ∧ (runState initState ([[helloReq], []].take (0 + 1))).message = helloReq :=
  ⟨(C2_bounded_staleness [[helloReq], []] 0 initialMessage (by decide)).1 rfl,
   ((C2_bounded_staleness [[helloReq], []] 0 initialMessage (by decide)).2
      [helloReq] rfl helloReq rfl).1⟩

/-- C6 counterexample: when the frequency argument is absent, the startup
path keeps the initial value 10 and classifies it as nominal — a single
DEBUG notice — rather than treating it as 0 and taking the zero-frequency
fallback, which would produce the ERROR and WARN notices of
frequencyResolution 0 (talker.cpp lines 85-90: atoi runs only when
argc > 1). -/
theorem C6_absent_argument_counterexample :
    startupFrequency [] ≠ frequencyResolution 0 := by
  decide

/-- C6 amended: a present but non-numeric frequency argument is parsed by
atoi to 0 and triggers the zero-frequency fallback (effective frequency 10,
error-level notice plus corrective warning notice); an absent argument
instead leaves the default 10 and takes the nominal path, emitting a single
debug-level notice and no fallback notices. -/
theorem C6_startup_argument_amended (s : String) (h : nonNumeric s = true) :
    atoi s = 0
    ∧ startupFrequency [s] = (10, [LogLevel.error, LogLevel.warn])
    ∧ startupFrequency [] = (10, [LogLevel.debug]) := by
  have h0 : atoi s = 0 := atoi_of_nonNumeric h
  refine ⟨h0, ?_, rfl⟩
  show frequencyResolution (atoi s) = (10, [LogLevel.error, LogLevel.warn])
  rw [h0]
  rfl

/-- Witness for C6 amended at the concrete non-numeric argument "abc". -/
theorem C6_startup_argument_witness :
    nonNumeric argAbc = true
    ∧ (atoi argAbc = 0
       ∧ startupFrequency [argAbc] = (10, [LogLevel.error, LogLevel.warn])
       ∧ startupFrequency [] = (10, [LogLevel.debug])) :=
  ⟨by decide, C6_startup_argument_amended argAbc (by decide)⟩

/-- C9: Constant transform emission (talker.cpp lines 166-174).  Whatever
the loop state (message content and counter) and the time of emission, the
emitted transform has translation (0, 2, 0), rotation equal to the
quaternion for roll 0, pitch 0, yaw 1 radian — namely
(0, 0, sin(1/2), cos(1/2)) — parent frame "world" and child frame "talk",
and is stamped with the emission time; two emissions from different states
at the same time are identical, so only the timestamp varies between ticks.
The emission is a total function: it never fails. -/
theorem C9_constant_transform (s1 s2 : LoopState) (t : ℝ) :
    (tf.sendTransform s1 t).translation = ⟨0, 2, 0⟩
    ∧ (tf.sendTransform s1 t).rotation = tf.setRPY 0 0 1
    ∧ (tf.sendTransform s1 t).rotation = ⟨0, 0, Real.sin (1 / 2), Real.cos (1 / 2)⟩
    ∧ (tf.sendTransform s1 t).frame_id = "world"
    ∧ (tf.sendTransform s1 t).child_frame_id = "talk"
    ∧ (tf.sendTransform s1 t).stamp = t
    ∧ tf.sendTransform s1 t = tf.sendTransform s2 t := by
  refine ⟨rfl, rfl, ?_, rfl, rfl, rfl, rfl⟩
  show tf.setRPY 0 0 1 = ⟨0, 0, Real.sin (1 / 2), Real.cos (1 / 2)⟩
  unfold tf.setRPY
  simp

/-- C10: The counter at talker.cpp line 144 is a 32-bit machine int, so the
value it holds is its tick count reduced modulo 2^32 (read back in two's
complement); it coincides with the true tick count exactly while that count
stays below 2^31, and at 2^31 completed ticks the machine value already
differs from the tick count. -/
theorem C10_counter_wraparound :
    (∀ n : Nat, toInt32 n = toInt32 (n % 2 ^ 32))
    ∧ (∀ schedule : List (List String),
        (runState initState schedule).count < 2 ^ 31 →
          toInt32 (runState initState schedule).count =
            ((runState initState schedule).count : Int))
    ∧ toInt32 (2 ^ 31) ≠ ((2 ^ 31 : Nat) : Int) := by
  refine ⟨fun n => ?_, fun schedule h => ?_, by decide⟩
  · unfold toInt32
    rw [Nat.mod_mod_of_dvd n dvd_rfl]
  · exact toInt32_of_lt h

/-- Witness for C10 on the two-tick schedule: the counter value 2 is below
2^31 and its machine value is 2. -/
theorem C10_counter_wraparound_witness :
    (runState initState [[], []]).count < 2 ^ 31
    ∧ toInt32 (runState initState [[], []]).count =
        ((runState initState [[], []]).count : Int) := by
  have h : (runState initState [[], []]).count < 2 ^ 31 := by
    norm_num [runState, tick, initState]
  exact ⟨h, C10_counter_wraparound.2.1 [[], []] h⟩
